import Mathlib

/-!
Verification development for the live Hindi/English transcription server.

This file gives a shallow embedding, in Lean 4, of the core of the
repository: the framed audio-ingestion protocol with its backpressure
queue (server.py), the transcription session state machine with
silence-triggered finalization, confidence estimation, automatic
language switching and bounded history (transcribe.py), and the
server-side transcription history export (server.py).

Modelling conventions:
* Python floats are embedded as rationals; wall-clock reads
  (time.time()) become explicit `now` parameters.
* External collaborators (the langdetect library, the RealtimeSTT
  recorder, the TextSimilarity comparator and the
  strip_ending_punctuation helper from the turndetect module, both of
  which live outside the embedded core) are passed in as function
  parameters, so every theorem holds for all of their behaviours.
* Logging, perf counters and file I/O are side effects outside the
  state; callback emission is reflected in an `Option TranscriptionResult`
  component of each operation's return value.
* The two deployment profiles (standard / Railway) are captured by a
  `Config` value mirroring the IS_RAILWAY flag read at module load.
-/

namespace Transcription

/-- Deployment profile: IS_RAILWAY = os.getenv("RAILWAY_DEPLOYMENT", "false") == "true". -/
structure Config where
  isRailway : Bool
deriving DecidableEq, Repr

/-- transcribe.py: _TRANSCRIPTION_CACHE_SIZE = 200 if IS_RAILWAY else 1000. -/
def TRANSCRIPTION_CACHE_SIZE (cfg : Config) : Nat :=
  if cfg.isRailway then 200 else 1000

/-- transcribe.py: _AUTO_SAVE_INTERVAL = 50 if IS_RAILWAY else 100. -/
def AUTO_SAVE_INTERVAL (cfg : Config) : Nat :=
  if cfg.isRailway then 50 else 100

/-- transcribe.py: _PIPELINE_RESERVE_TIME_MS = 0.025 if IS_RAILWAY else 0.015. -/
def PIPELINE_RESERVE_TIME_MS (cfg : Config) : ℚ :=
  if cfg.isRailway then 25/1000 else 15/1000

/-- transcribe.py: _LANGUAGE_DETECTION_MIN_WORDS = 3. -/
def LANGUAGE_DETECTION_MIN_WORDS : Nat := 3

/-- Python's str.strip() with no argument: remove leading and trailing
    whitespace. -/
def pyStrip (t : String) : String :=
  String.mk (((t.toList.dropWhile Char.isWhitespace).reverse.dropWhile
    Char.isWhitespace).reverse)

/-- Worker for pySplit: accumulate the current word (reversed) while
    scanning the characters. -/
def pySplitAux : List Char → List Char → List String
  | [], acc => if acc = [] then [] else [String.mk acc.reverse]
  | c :: cs, acc =>
    if c.isWhitespace then
      if acc = [] then pySplitAux cs [] else String.mk acc.reverse :: pySplitAux cs []
    else pySplitAux cs (c :: acc)

/-- Python's str.split() with no argument: split on whitespace runs,
    dropping empty pieces. -/
def pySplit (t : String) : List String := pySplitAux t.toList []

/-- len(text.split()) as used throughout transcribe.py. -/
def countWords (t : String) : Nat := (pySplit t).length

/-- len(set(text.lower())): number of distinct characters of the
    lowercased text (transcribe.py, estimate_confidence). -/
def uniqueChars (t : String) : Nat := (t.toList.map Char.toLower).dedup.length

/-- Regex [a-zA-Z] on a single character. -/
def isLatinChar (c : Char) : Bool :=
  ('a'.toNat ≤ c.toNat && c.toNat ≤ 'z'.toNat) ||
  ('A'.toNat ≤ c.toNat && c.toNat ≤ 'Z'.toNat)

/-- Regex [ऀ-ॿ] (Devanagari) on a single character. -/
def isDevanagariChar (c : Char) : Bool :=
  0x900 ≤ c.toNat && c.toNat ≤ 0x97F

/-- Regex [ঀ-৿਀-੿઀-૿] (further Indic
    scripts) on a single character. -/
def isOtherIndicChar (c : Char) : Bool :=
  (0x980 ≤ c.toNat && c.toNat ≤ 0x9FF) ||
  (0xA00 ≤ c.toNat && c.toNat ≤ 0xA7F) ||
  (0xA80 ≤ c.toNat && c.toNat ≤ 0xAFF)

/-- transcribe.py _has_mixed_scripts: Latin together with Devanagari or
    another South Asian script. -/
def hasMixedScripts (t : String) : Bool :=
  (t.toList.any isLatinChar) &&
  (t.toList.any (fun c => isDevanagariChar c || isOtherIndicChar c))

/-- max(word_freq.values()) if word_freq else 1 (transcribe.py,
    estimate_confidence repetition check). -/
def maxRepetition (ws : List String) : Nat :=
  ((ws.map (fun w => ws.count w)).max?).getD 1

/-- np.abs(audio).mean(): mean absolute amplitude of the audio buffer. -/
def meanAbs (a : List ℚ) : ℚ := (a.map (fun x => |x|)).sum / a.length

/-- np.mean(audio ** 2): mean energy of the audio buffer. -/
def signalPower (a : List ℚ) : ℚ := (a.map (fun x => x * x)).sum / a.length

/-- np.mean(np.sort(audio ** 2)[:len/4]): mean energy of the quietest
    quarter of the samples (transcribe.py _estimate_snr). -/
def noisePower (a : List ℚ) : ℚ :=
  let e := a.map (fun x => x * x)
  let q := (e.mergeSort (fun x y => decide (x ≤ y))).take (e.length / 4)
  q.sum / q.length

/-- The comparison _estimate_snr(audio) < 10 from estimate_confidence,
    written without logarithms: when noise_power > 0 the source returns
    max(0, 10 * log10(signal/noise)), and since 0 < 10 that value is
    < 10 exactly when signal < 10 * noise; when noise_power = 0 the
    source returns 30, which is not < 10. -/
def snrBelowTen (a : List ℚ) : Bool :=
  decide (0 < noisePower a) && decide (signalPower a < 10 * noisePower a)

/-- transcribe.py estimate_confidence(text, audio_data): deterministic
    confidence heuristic.  current_language is the session field read by
    the mixed-script penalty. -/
def estimate_confidence (current_language : String) (text : String)
    (audio : Option (List ℚ)) : ℚ :=
  if text = "" ∨ pyStrip text = "" then 0
  else
    let words := pySplit text
    let c1 : ℚ := 1
    let c2 := if words.length < 2 then c1 * (7/10)
              else if words.length > 50 then c1 * (9/10) else c1
    let c3 := if uniqueChars text < 5 ∧ text.length > 10 then c2 * (6/10) else c2
    let c4 := if hasMixedScripts text then
                (if current_language = "hi-en" then c3 * (95/100) else c3 * (75/100))
              else c3
    let c5 := if (maxRepetition words : ℚ) > (words.length : ℚ) * (1/2)
              then c4 * (6/10) else c4
    let c6 := match audio with
      | none => c5
      | some a =>
        if a.length > 0 then
          let volume := meanAbs a
          let cv := if volume < 1/100 then c5 * (8/10)
                    else if volume > 1/2 then c5 * (9/10) else c5
          if a.length > 1600 ∧ snrBelowTen a then cv * (85/100) else cv
        else c5
    max 0 (min 1 c6)

/-- One entry of the LANGUAGE_MODELS registry (transcribe.py). -/
structure LanguageModel where
  model : String
  realtime_model : String
  name : String
  whisper_code : Option String
deriving DecidableEq, Repr

/-- transcribe.py LANGUAGE_MODELS: the static language registry, keyed by
    language tag, with Railway-dependent model choices. -/
def LANGUAGE_MODELS (cfg : Config) : List (String × LanguageModel) :=
  [("en", { model := if cfg.isRailway then "tiny.en" else "base.en",
            realtime_model := if cfg.isRailway then "tiny.en" else "base.en",
            name := "English", whisper_code := some "en" }),
   ("hi", { model := if cfg.isRailway then "tiny" else "base",
            realtime_model := if cfg.isRailway then "tiny" else "base",
            name := "Hindi", whisper_code := some "hi" }),
   ("hi-en", { model := if cfg.isRailway then "tiny" else "base",
               realtime_model := if cfg.isRailway then "tiny" else "base",
               name := "Hindi-English (Code-switching)", whisper_code := none })]

/-- lang in LANGUAGE_MODELS: membership of a tag in the registry. -/
def supportedLanguage (cfg : Config) (lang : String) : Bool :=
  (List.lookup lang (LANGUAGE_MODELS cfg)).isSome

/-- transcribe.py TranscriptionResult (the derived datetime field is a
    pure rendering of timestamp and is omitted). -/
structure TranscriptionResult where
  text : String
  confidence : ℚ
  timestamp : ℚ
  language : String
  is_final : Bool
  duration : ℚ
  word_count : Nat
  has_mixed_language : Bool
deriving DecidableEq, Repr

/-- TranscriptionResult.__init__ word_count logic:
    word_count or len(text.split()) if text else 0, which parses as
    (word_count or len(text.split())) if text else 0. -/
def mkResult (text : String) (confidence timestamp : ℚ) (language : String)
    (is_final : Bool) (duration : ℚ) (word_count : Nat) (has_mixed : Bool) :
    TranscriptionResult :=
  { text := text, confidence := confidence, timestamp := timestamp,
    language := language, is_final := is_final, duration := duration,
    word_count := if text ≠ "" then (if word_count ≠ 0 then word_count else countWords text) else 0,
    has_mixed_language := has_mixed }

/-- Mutable state of OptimizedTranscriptionProcessor (the fields the
    embedded operations read or write; recorder presence is a Bool since
    the recorder object itself is external; perf counters, export paths
    and the audio cache are external side channels). -/
structure ProcessorState where
  current_language : String
  auto_language_switching : Bool
  language_detector_enabled : Bool
  transcription_history : List TranscriptionResult
  realtime_text : Option String
  current_confidence : ℚ
  silence_time : ℚ
  silence_active : Bool
  recording_start_time : Option ℚ
  last_partial_text : String
  recorder : Bool
  shutdown_performed : Bool
  pipeline_latency : ℚ
  post_speech_silence_duration : ℚ
  export_path : Bool
  auto_save_counter : Nat
deriving DecidableEq, Repr

/-- Python truthiness of an Optional[str]: None and "" are falsy. -/
def optTruthy : Option String → Bool
  | none => false
  | some t => !t.isEmpty

/-- Python list slice xs[-cap:]: the last cap elements, except that
    xs[-0:] is the whole list. -/
def pyLastSlice (cap : Nat) (xs : List TranscriptionResult) : List TranscriptionResult :=
  if cap = 0 then xs else xs.drop (xs.length - cap)

/-- The history size management applied by on_final and
    _finalize_current_transcription:
    if len(history) > cache_size: history = history[-cache_size:]. -/
def manageHistorySize (cfg : Config) (h : List TranscriptionResult) :
    List TranscriptionResult :=
  if h.length > TRANSCRIPTION_CACHE_SIZE cfg then
    pyLastSlice (TRANSCRIPTION_CACHE_SIZE cfg) h
  else h

/-- transcribe.py _auto_save_if_needed (the actual file export is I/O;
    only the counter state changes: no export path leaves it alone,
    otherwise it is incremented and wraps to 0 at the interval). -/
def autoSaveIfNeeded (cfg : Config) (s : ProcessorState) : ProcessorState :=
  { s with auto_save_counter :=
      if !s.export_path then s.auto_save_counter
      else if s.auto_save_counter + 1 ≥ AUTO_SAVE_INTERVAL cfg then 0
      else s.auto_save_counter + 1 }

/-- The lang_mapping dictionary of detect_language with its .get(detected,
    detected) fallback. -/
def langMapping (d : String) : String :=
  if d = "hi" then "hi"
  else if d = "en" then "en"
  else if d = "ur" then "hi"
  else if d = "pa" then "hi"
  else if d = "bn" then "hi"
  else d

/-- transcribe.py detect_language.  oracle stands for the external
    langdetect.detect call: some d is a detected code, none is a raised
    exception (mapped to None by the except branch). -/
def detect_language (enabled : Bool) (oracle : String → Option String)
    (text : String) : Option String :=
  if !enabled ∨ text = "" ∨ countWords text < LANGUAGE_DETECTION_MIN_WORDS then none
  else
    match oracle text with
    | none => none
    | some d => if hasMixedScripts text then some "hi-en" else some (langMapping d)

/-- transcribe.py switch_language: validate against the registry, no-op
    on the current language, otherwise update current_language (the
    recorder-parameter write and the language_detection_callback are
    external side effects). -/
def switch_language (cfg : Config) (newLang : String) (s : ProcessorState) :
    ProcessorState × Bool :=
  if !supportedLanguage cfg newLang then (s, false)
  else if newLang = s.current_language then (s, true)
  else ({ s with current_language := newLang }, true)

/-- transcribe.py _finalize_current_transcription: build a final result
    from realtime_text and current_confidence, append it to the history
    with size management, emit it, run the auto-save check. -/
def finalize_current_transcription (cfg : Config)
    (oracle : String → Option String) (now : ℚ) (s : ProcessorState) :
    ProcessorState × Option TranscriptionResult :=
  if !optTruthy s.realtime_text then (s, none)
  else
    let text := s.realtime_text.getD ""
    let detected_lang :=
      (detect_language s.language_detector_enabled oracle text).getD s.current_language
    let result := mkResult text s.current_confidence now detected_lang true
      (now - s.recording_start_time.getD now) (countWords text) (hasMixedScripts text)
    let s1 := { s with transcription_history :=
      manageHistorySize cfg (s.transcription_history ++ [result]) }
    (autoSaveIfNeeded cfg s1, some result)

/-- transcribe.py on_final (the final-transcription recorder callback):
    drop empty or whitespace-only text, otherwise build a final result
    with freshly estimated confidence and detected language, append with
    size management, emit, auto-save.  audio is the buffer returned by
    get_last_audio_copy(). -/
def on_final (cfg : Config) (oracle : String → Option String) (now : ℚ)
    (audio : Option (List ℚ)) (text : Option String) (s : ProcessorState) :
    ProcessorState × Option TranscriptionResult :=
  if !optTruthy text ∨ pyStrip (text.getD "") = "" then (s, none)
  else
    let t := text.getD ""
    let confidence := estimate_confidence s.current_language t audio
    let final_language :=
      (detect_language s.language_detector_enabled oracle t).getD s.current_language
    let result := mkResult t confidence now final_language true
      (now - s.recording_start_time.getD now) (countWords t) (hasMixedScripts t)
    let s1 := { s with transcription_history :=
      manageHistorySize cfg (s.transcription_history ++ [result]) }
    (autoSaveIfNeeded cfg s1, some result)

/-- transcribe.py force_finalize: requires a recorder and a truthy
    realtime_text; appends the result to the history WITHOUT the size
    management the other two append sites apply. -/
def force_finalize (cfg : Config) (oracle : String → Option String) (now : ℚ)
    (audio : Option (List ℚ)) (s : ProcessorState) :
    ProcessorState × Option TranscriptionResult :=
  if !s.recorder ∨ !optTruthy s.realtime_text then (s, none)
  else
    let text := s.realtime_text.getD ""
    let confidence := estimate_confidence s.current_language text audio
    let detected_lang :=
      (detect_language s.language_detector_enabled oracle text).getD s.current_language
    let result := mkResult text confidence now detected_lang true
      (now - s.recording_start_time.getD now) (countWords text) (hasMixedScripts text)
    let s1 := { s with transcription_history := s.transcription_history ++ [result] }
    (autoSaveIfNeeded cfg s1, some result)

/-- One iteration of the _start_silence_monitor polling loop at wall
    time now: when a recorder exists and a non-zero silence-start is
    recorded, compare the elapsed silence with
    post_speech_silence_duration - pipeline_latency - reserve, and
    finalize when exceeded with a non-empty realtime text. -/
def monitor_poll (cfg : Config) (oracle : String → Option String) (now : ℚ)
    (s : ProcessorState) : ProcessorState × Option TranscriptionResult :=
  if s.shutdown_performed then (s, none)
  else if s.recorder ∧ s.silence_time ≠ 0 then
    let silence_waiting_time := s.post_speech_silence_duration
    let time_since_silence := now - s.silence_time
    let finalize_threshold :=
      silence_waiting_time - s.pipeline_latency - PIPELINE_RESERVE_TIME_MS cfg
    if time_since_silence > finalize_threshold ∧ optTruthy s.realtime_text then
      finalize_current_transcription cfg oracle now s
    else (s, none)
  else (s, none)

/-- Python history[-3:] as read by the hysteresis check. -/
def lastThree (h : List TranscriptionResult) : List TranscriptionResult :=
  h.drop (h.length - 3)

/-- The recent_detections list of on_partial:
    [detect_language(t.text) for t in history[-3:] if t.text]. -/
def recentDetections (enabled : Bool) (oracle : String → Option String)
    (h : List TranscriptionResult) : List (Option String) :=
  ((lastThree h).filter (fun r => r.text ≠ "")).map
    (fun r => detect_language enabled oracle r.text)

/-- The automatic language-switching block of on_partial (transcribe.py
    lines 798-812), applied to a partial text t. -/
def auto_switch (cfg : Config) (oracle : String → Option String) (t : String)
    (s : ProcessorState) : ProcessorState :=
  if !s.auto_language_switching then s
  else
    match detect_language s.language_detector_enabled oracle t with
    | none => s
    | some d =>
      if d = "" ∨ d = s.current_language then s
      else if hasMixedScripts t ∧ s.current_language ≠ "hi-en" then
        (switch_language cfg "hi-en" s).1
      else if (d = "hi" ∨ d = "en") ∧ ¬hasMixedScripts t then
        if s.current_language = "hi-en" then
          if 2 ≤ (recentDetections s.language_detector_enabled oracle
                    s.transcription_history).count (some d) then
            (switch_language cfg d s).1
          else s
        else (switch_language cfg d s).1
      else s

/-- transcribe.py on_partial (the realtime recorder callback).
    similarOracle stands for the external TextSimilarity.is_similar
    comparator at the _SIMILARITY_THRESHOLD, stripEnding for the
    strip_ending_punctuation helper of the turndetect module; audio is
    the get_last_audio_copy() buffer.  Note that realtime_text,
    current_confidence and the language switch all happen BEFORE the
    dedup early return, while last_partial_text is updated and the
    result emitted only when the dedup check passes. -/
def onPartialText (cfg : Config) (oracle : String → Option String)
    (similarOracle : String → String → Bool) (stripEnding : String → String)
    (now : ℚ) (audio : Option (List ℚ)) (text : Option String)
    (s : ProcessorState) : ProcessorState × Option TranscriptionResult :=
  if !optTruthy text then (s, none)
  else
    let t := text.getD ""
    let s1 := { s with realtime_text := some t }
    let s2 := { s1 with current_confidence :=
      estimate_confidence s1.current_language t audio }
    let s3 := auto_switch cfg oracle t s2
    let result := mkResult t s3.current_confidence now s3.current_language false
      (now - s3.recording_start_time.getD now) (countWords t) (hasMixedScripts t)
    let stripped := stripEnding t
    if similarOracle s3.last_partial_text stripped then (s3, none)
    else ({ s3 with last_partial_text := stripped }, some result)

/-- transcribe.py set_silence: flip the flag (and fire the callback)
    only on an actual change. -/
def set_silence (b : Bool) (s : ProcessorState) : ProcessorState :=
  if s.silence_active ≠ b then { s with silence_active := b } else s

/-- The recorder's on_turn_detection_start callback
    (start_silence_detection): silence_time becomes the recorder's
    speech_end_silence_start when truthy, else the wall time. -/
def start_silence_detection (recorderSilenceStart : Option ℚ) (now : ℚ)
    (s : ProcessorState) : ProcessorState :=
  let s1 := set_silence true s
  let v := recorderSilenceStart.getD 0
  { s1 with silence_time := if v = 0 then now else v }

/-- The recorder's on_turn_detection_stop callback
    (stop_silence_detection). -/
def stop_silence_detection (s : ProcessorState) : ProcessorState :=
  let s1 := set_silence false s
  { s1 with silence_time := 0 }

/-- The recorder's on_recording_start callback (start_recording). -/
def start_recording (now : ℚ) (s : ProcessorState) : ProcessorState :=
  let s1 := { s with recording_start_time := some now }
  let s2 := set_silence false s1
  { s2 with silence_time := 0, last_partial_text := "" }

/-- OptimizedTranscriptionProcessor.__init__: the state right after
    construction.  current_language is set to the source_language
    argument unvalidated; recorderCreated reflects whether the external
    recorder construction succeeded. -/
def init_processor (cfg : Config) (source_language : String)
    (auto_language_switching : Bool) (continuous_mode : Bool)
    (pipeline_latency : ℚ) (export_path : Bool) (detector_enabled : Bool)
    (recorderCreated : Bool) : ProcessorState :=
  { current_language := source_language,
    auto_language_switching := auto_language_switching,
    language_detector_enabled := detector_enabled,
    transcription_history := [],
    realtime_text := none,
    current_confidence := 0,
    silence_time := 0,
    silence_active := false,
    recording_start_time := none,
    last_partial_text := "",
    recorder := recorderCreated,
    shutdown_performed := false,
    pipeline_latency := pipeline_latency,
    post_speech_silence_duration :=
      if continuous_mode then 1/2 else (if cfg.isRailway then 9/10 else 7/10),
    export_path := export_path,
    auto_save_counter := 0 }

end Transcription

namespace Server

/-- server.py: MAX_AUDIO_QUEUE_SIZE, env-tunable with a smaller default
    under the Railway deployment profile. -/
def MAX_AUDIO_QUEUE_SIZE (railway : Bool) (envOverride : Option Nat) : Nat :=
  envOverride.getD (if railway then 30 else 100)

/-- Big-endian 32-bit read, as struct.unpack does on a 4-byte slice. -/
def readBE4 : List Nat → Nat
  | [b0, b1, b2, b3] => ((b0 * 256 + b1) * 256 + b2) * 256 + b3
  | _ => 0

/-- The header step of process_incoming_data (server.py lines 428-437):
    reject buffers shorter than 8 bytes (log and continue), otherwise
    struct.unpack("!II", raw[:8]). -/
def unpackHeader (raw : List Nat) : Option (Nat × Nat) :=
  if raw.length < 8 then none
  else some (readBE4 (raw.take 4), readBE4 ((raw.drop 4).take 4))

/-- The metadata dictionary built for one binary message (server.py
    lines 438-454); the formatted-time strings are pure renderings and
    are omitted; serverReceivedNs is the time.time_ns() read. -/
structure FrameMeta where
  client_sent_ms : Nat
  client_sent_ns : Nat
  isTTSPlaying : Bool
  server_received_ns : Nat
  pcm : List Nat
deriving DecidableEq, Repr

/-- Processing of one inbound binary message up to the queue step:
    none means the frame was rejected (connection continues). -/
def process_binary_message (serverReceivedNs : Nat) (raw : List Nat) :
    Option FrameMeta :=
  match unpackHeader raw with
  | none => none
  | some (timestamp_ms, flags) =>
    some { client_sent_ms := timestamp_ms,
           client_sent_ns := timestamp_ms * 1000000,
           isTTSPlaying := Nat.testBit flags 0,
           server_received_ns := serverReceivedNs,
           pcm := raw.drop 8 }

/-- Modelled from the spec: the client-side binary frame encoder of §6
    ([4 bytes BE uint32 timestamp_ms][4 bytes BE uint32 flags][PCM]),
    which lives in the frontend and is not part of the embedded server
    code. -/
def encodeFrame (timestamp_ms flags : Nat) (pcm : List Nat) : List Nat :=
  [timestamp_ms / 16777216 % 256, timestamp_ms / 65536 % 256,
   timestamp_ms / 256 % 256, timestamp_ms % 256,
   flags / 16777216 % 256, flags / 65536 % 256,
   flags / 256 % 256, flags % 256] ++ pcm

/-- The queue step of process_incoming_data (server.py lines 456-465):
    if the current depth is below the configured capacity the chunk is
    enqueued, otherwise it is dropped (with a warning, no exception).
    The returned Bool is true when the chunk was enqueued.  The
    function is total: an enqueue never waits. -/
def enqueue_audio_chunk (maxSize : Nat) (q : List FrameMeta) (m : FrameMeta) :
    List FrameMeta × Bool :=
  if q.length < maxSize then (q ++ [m], true) else (q, false)

/-- A sequence of enqueues. -/
def enqueue_all (maxSize : Nat) (q : List FrameMeta) (ms : List FrameMeta) :
    List FrameMeta :=
  ms.foldl (fun acc m => (enqueue_audio_chunk maxSize acc m).1) q

/-- One entry of the server-side TranscriptionHistory (server.py);
    formatted_time is the format_timestamp_ns rendering, whose local
    time zone is an external concern, so the entry stores the string
    produced by a rendering function passed in by the caller. -/
structure HistoryEntry where
  text : String
  language : String
  timestamp : ℚ
  formatted_time : String
  is_final : Bool
deriving DecidableEq, Repr

/-- TranscriptionHistory.add_transcription: append one entry.  fmt is
    format_timestamp_ns composed with the ns conversion. -/
def add_transcription (fmt : ℚ → String) (h : List HistoryEntry)
    (text language : String) (timestamp : ℚ) (is_final : Bool) :
    List HistoryEntry :=
  h ++ [{ text := text, language := language, timestamp := timestamp,
          formatted_time := fmt timestamp, is_final := is_final }]

/-- The line rendered for one entry by export_to_text. -/
def entryLine (e : HistoryEntry) : String :=
  "[" ++ e.formatted_time ++ "] (" ++ e.language ++ ") " ++ e.text

/-- The loop body of TranscriptionHistory.export_to_text: a line is
    appended only when entry.is_final holds. -/
def exportLines (h : List HistoryEntry) : List String :=
  h.foldl (fun acc e => if e.is_final then acc ++ [entryLine e] else acc) []

/-- TranscriptionHistory.export_to_text: the session header line
    followed by one line per final entry, joined with newlines.  header
    is the session-start rendering (wall-clock, external). -/
def export_to_text (header : String) (h : List HistoryEntry) : String :=
  String.intercalate "\n" (header :: exportLines h)

/-- TranscriptionCallbacks.on_partial (server.py lines 679-709): a
    non-empty partial differing from the last one is recorded in the
    history with is_final=False.  Returns the new (last_partial_text,
    history) pair. -/
def callbacksOnPartialText (fmt : ℚ → String) (current_language : String)
    (now : ℚ) (last_partial_text : String) (h : List HistoryEntry)
    (txt : String) : String × List HistoryEntry :=
  if txt ≠ "" ∧ txt ≠ last_partial_text then
    (txt, add_transcription fmt h txt current_language now false)
  else (last_partial_text, h)

end Server

section ConfidenceBounds

open Transcription

/-- C6: for every text string and every optional audio-sample array,
    estimate_confidence returns a value in the closed interval [0,1],
    and estimate_confidence("") returns exactly 0. -/
theorem C6_confidence_bounds :
    (∀ (lang text : String) (audio : Option (List ℚ)),
       0 ≤ estimate_confidence lang text audio ∧
       estimate_confidence lang text audio ≤ 1) ∧
    (∀ (lang : String) (audio : Option (List ℚ)),
       estimate_confidence lang "" audio = 0) := by
  constructor
  · intro lang text audio
    rw [estimate_confidence]
    split
    · norm_num
    · dsimp only
      exact ⟨le_max_left 0 _, max_le (by norm_num) (min_le_left 1 _)⟩
  · intro lang audio
    rw [estimate_confidence]
    rw [if_pos (Or.inl rfl)]

end ConfidenceBounds

section FrameParsing

open Server

/-- Reading back a big-endian encoded 32-bit value. -/
theorem readBE4_encode (n : Nat) (h : n < 4294967296) :
    readBE4 [n / 16777216 % 256, n / 65536 % 256, n / 256 % 256, n % 256] = n := by
  simp only [readBE4]
  omega

/-- C5: for every byte buffer of length at least 8, parsing recovers
    exactly the encoded big-endian uint32 timestamp, the flags word
    (bit 0 = TTS playing) and the remaining bytes as PCM; every buffer
    shorter than 8 bytes is rejected (parse returns none; the handler
    logs, discards and continues, raising nothing). -/
theorem C5_frame_parsing :
    (∀ (ts fl : Nat) (pcm : List Nat) (serverNs : Nat),
       ts < 4294967296 → fl < 4294967296 →
       process_binary_message serverNs (encodeFrame ts fl pcm) =
         some { client_sent_ms := ts, client_sent_ns := ts * 1000000,
                isTTSPlaying := Nat.testBit fl 0,
                server_received_ns := serverNs, pcm := pcm }) ∧
    (∀ (raw : List Nat) (serverNs : Nat), raw.length < 8 →
       process_binary_message serverNs raw = none) := by
  constructor
  · intro ts fl pcm serverNs hts hfl
    simp only [process_binary_message, unpackHeader, encodeFrame,
      List.cons_append, List.nil_append, List.take_succ_cons, List.take_zero,
      List.drop_succ_cons, List.drop_zero, List.length_cons]
    rw [if_neg (by omega)]
    dsimp only
    rw [readBE4_encode ts hts, readBE4_encode fl hfl]
  · intro raw serverNs hlen
    simp [process_binary_message, unpackHeader, hlen]

/-- C5 witness: the round trip and the short-buffer rejection at
    concrete inputs. -/
theorem C5_frame_parsing_witness :
    process_binary_message 7 (encodeFrame 123456 5 [9, 8, 7]) =
      some { client_sent_ms := 123456, client_sent_ns := 123456000000,
             isTTSPlaying := true, server_received_ns := 7, pcm := [9, 8, 7] } ∧
    process_binary_message 7 [1, 2, 3, 4, 5] = none := by
  constructor
  · have h := C5_frame_parsing.1 123456 5 [9, 8, 7] 7 (by norm_num) (by norm_num)
    rw [h]
    norm_num
  · exact C5_frame_parsing.2 [1, 2, 3, 4, 5] 7 (by norm_num)

end FrameParsing

section BackpressureQueue

open Server

/-- A distinguishable frame-metadata value for concrete queue scenarios. -/
def sampleMeta (i : Nat) : FrameMeta :=
  { client_sent_ms := i, client_sent_ns := i * 1000000, isTTSPlaying := false,
    server_received_ns := 0, pcm := [] }

/-- Running enqueues from any queue no longer than the capacity fills the
    free space with the earliest offered chunks and drops the rest. -/
theorem enqueue_all_from (cap : Nat) (ms : List FrameMeta) :
    ∀ (q : List FrameMeta), q.length ≤ cap →
      enqueue_all cap q ms = q ++ ms.take (cap - q.length) := by
  induction ms with
  | nil => intro q _; simp [enqueue_all]
  | cons m ms ih =>
    intro q hq
    by_cases hlt : q.length < cap
    · have hstep : enqueue_all cap q (m :: ms) = enqueue_all cap (q ++ [m]) ms := by
        simp [enqueue_all, enqueue_audio_chunk, hlt]
      rw [hstep, ih (q ++ [m]) (by simpa using hlt)]
      have hsub : cap - q.length = (cap - (q.length + 1)) + 1 := by omega
      rw [hsub, List.take_succ_cons]
      simp
    · have hstep : enqueue_all cap q (m :: ms) = enqueue_all cap q ms := by
        simp [enqueue_all, enqueue_audio_chunk, hlt]
      have heq : q.length = cap := le_antisymm hq (not_lt.1 hlt)
      rw [hstep, ih q hq]
      simp [heq]

/-- C3 counterexample: with the default standard-profile capacity (100),
    enqueuing 101 chunks leaves the EARLIEST 100 in the queue; the
    claim's reading that the survivors are the most-recently-enqueued
    ones fails. -/
theorem C3_counterexample :
    enqueue_all (MAX_AUDIO_QUEUE_SIZE false none) []
        ((List.range 101).map sampleMeta) =
      ((List.range 101).map sampleMeta).take 100 ∧
    enqueue_all (MAX_AUDIO_QUEUE_SIZE false none) []
        ((List.range 101).map sampleMeta) ≠
      ((List.range 101).map sampleMeta).drop 1 := by
  constructor
  · rw [enqueue_all_from (MAX_AUDIO_QUEUE_SIZE false none)
      ((List.range 101).map sampleMeta) [] (by decide)]
    decide
  · rw [enqueue_all_from (MAX_AUDIO_QUEUE_SIZE false none)
      ((List.range 101).map sampleMeta) [] (by decide)]
    decide

/-- C3 amended: enqueuing capacity+1 chunks never blocks (the enqueue
    step is a total function that immediately accepts or drops);
    afterwards the queue holds exactly capacity items, and the survivors
    are the EARLIEST-enqueued capacity chunks - the newest chunk is the
    one dropped (newest-drop policy, logged, no exception). -/
theorem C3_amended (cap : Nat) (ms : List FrameMeta)
    (hcap : 0 < cap) (hlen : ms.length = cap + 1) :
    (enqueue_all cap [] ms).length = cap ∧
    enqueue_all cap [] ms = ms.take cap := by
  have h := enqueue_all_from cap ms [] (by simp)
  simp only [List.nil_append, List.length_nil, Nat.sub_zero] at h
  refine ⟨?_, h⟩
  rw [h, List.length_take, hlen]
  omega

/-- C3 amended witness: the default capacity-100 queue after 101
    enqueues. -/
theorem C3_amended_witness :
    (enqueue_all 100 [] ((List.range 101).map sampleMeta)).length = 100 ∧
    enqueue_all 100 [] ((List.range 101).map sampleMeta) =
      ((List.range 101).map sampleMeta).take 100 :=
  C3_amended 100 ((List.range 101).map sampleMeta) (by norm_num) (by decide)

end BackpressureQueue

section ExportHistory

open Server

/-- The export loop of export_to_text, started from any accumulator,
    emits exactly the lines of the final entries, in order. -/
theorem exportLines_eq_filter (h : List HistoryEntry) :
    ∀ (acc : List String),
      h.foldl (fun acc e => if e.is_final then acc ++ [entryLine e] else acc) acc =
        acc ++ (h.filter (fun e => e.is_final)).map entryLine := by
  induction h with
  | nil => intro acc; simp
  | cons e h ih =>
    intro acc
    by_cases hf : e.is_final
    · simp [hf, List.foldl_cons, ih (acc ++ [entryLine e])]
    · simp [hf, List.foldl_cons, ih acc]

/-- C10: the text export emits a line only for entries whose is_final
    flag is true; in particular the partial entries that the
    server-side on_partial callback appends to the same history never
    change the text export. -/
theorem C10_export_finals_only :
    (∀ (h : List HistoryEntry),
       exportLines h = (h.filter (fun e => e.is_final)).map entryLine) ∧
    (∀ (fmt : ℚ → String) (header lang txt last : String) (now : ℚ)
       (h : List HistoryEntry),
       export_to_text header
           (callbacksOnPartialText fmt lang now last h txt).2 =
         export_to_text header h) := by
  constructor
  · intro h
    simpa using exportLines_eq_filter h []
  · intro fmt header lang txt last now h
    rw [callbacksOnPartialText]
    split
    · simp only [export_to_text, exportLines, add_transcription]
      rw [exportLines_eq_filter (h ++ [_]) [], exportLines_eq_filter h []]
      simp
    · rfl

end ExportHistory

section HistoryCapacity

open Transcription

/-- The standard deployment profile. -/
def cfgStd : Config := { isRailway := false }

/-- The Railway deployment profile. -/
def cfgRailway : Config := { isRailway := true }

/-- A langdetect oracle that always raises (langdetect absent or
    failing); detection then returns None everywhere. -/
def oracleNone : String → Option String := fun _ => none

/-- A concrete final result used to fill histories in scenarios. -/
def resA : TranscriptionResult :=
  { text := "sample", confidence := 1, timestamp := 0, language := "en",
    is_final := true, duration := 0, word_count := 1, has_mixed_language := false }

/-- A second, distinct concrete final result. -/
def resB : TranscriptionResult :=
  { text := "other", confidence := 1, timestamp := 1, language := "hi",
    is_final := true, duration := 0, word_count := 1, has_mixed_language := false }

/-- A session state whose history already holds exactly the Railway
    capacity (200 entries), with a recorder and a pending partial. -/
def stateAtCapacity : ProcessorState :=
  { current_language := "en", auto_language_switching := false,
    language_detector_enabled := false,
    transcription_history := List.replicate 200 resA,
    realtime_text := some "hello", current_confidence := 1,
    silence_time := 0, silence_active := false, recording_start_time := some 0,
    last_partial_text := "", recorder := true, shutdown_performed := false,
    pipeline_latency := 3/10, post_speech_silence_duration := 9/10,
    export_path := false, auto_save_counter := 0 }

set_option maxRecDepth 8000 in
/-- C1: force_finalize appends to a history already at the configured
    capacity without running the size management that on_final and
    _finalize_current_transcription apply, leaving capacity + 1 stored
    entries — the code's own test suite asserts the history may never
    exceed _TRANSCRIPTION_CACHE_SIZE. -/
theorem C1_capacity_violation :
    TRANSCRIPTION_CACHE_SIZE cfgRailway = 200 ∧
    stateAtCapacity.transcription_history.length = 200 ∧
    ((force_finalize cfgRailway oracleNone 5 none stateAtCapacity).1).transcription_history.length = 201 := by
  refine ⟨rfl, by decide, ?_⟩
  decide

/-- The eviction step the claim describes (spec §3): drop the oldest
    half of the stored entries when the cap is exceeded. -/
def dropOldestHalf (h : List TranscriptionResult) : List TranscriptionResult :=
  h.drop (h.length / 2)

/-- A session state at the Railway capacity for the eviction scenario
    (no recorder interaction needed). -/
def stateFullHistory : ProcessorState :=
  { stateAtCapacity with realtime_text := none }

set_option maxRecDepth 8000 in
/-- C7 counterexample: a finalized append onto a history at the Railway
    capacity (200) keeps 200 entries — only the single oldest entry is
    evicted, not the oldest half (which would leave 101 of the 201
    stored entries). -/
theorem C7_counterexample :
    ((on_final cfgRailway oracleNone 1 none (some "hello world") stateFullHistory).1).transcription_history.length = 200 ∧
    (dropOldestHalf (stateFullHistory.transcription_history ++
        [((on_final cfgRailway oracleNone 1 none (some "hello world") stateFullHistory).2).getD resA])).length = 101 ∧
    ((on_final cfgRailway oracleNone 1 none (some "hello world") stateFullHistory).1).transcription_history ≠
      dropOldestHalf (stateFullHistory.transcription_history ++
        [((on_final cfgRailway oracleNone 1 none (some "hello world") stateFullHistory).2).getD resA]) := by
  have ha : ((on_final cfgRailway oracleNone 1 none (some "hello world") stateFullHistory).1).transcription_history.length = 200 := by
    decide
  have hb : (dropOldestHalf (stateFullHistory.transcription_history ++
      [((on_final cfgRailway oracleNone 1 none (some "hello world") stateFullHistory).2).getD resA])).length = 101 := by
    decide
  refine ⟨ha, hb, fun h => ?_⟩
  rw [h, hb] at ha
  exact absurd ha (by decide)

/-- The configured history capacity is positive in both profiles. -/
theorem cache_size_pos (cfg : Config) : 0 < TRANSCRIPTION_CACHE_SIZE cfg := by
  rcases cfg with ⟨b⟩
  cases b <;> decide

/-- C7 amended: when an append makes the history exceed the configured
    capacity, the history is truncated to the most recent capacity
    entries in one step: exactly the oldest overflow entry is dropped
    (one per append, not the oldest half), preserving the insertion
    order of the survivors. -/
theorem C7_amended (cfg : Config) (h : List TranscriptionResult)
    (r : TranscriptionResult) (hlen : h.length = TRANSCRIPTION_CACHE_SIZE cfg) :
    manageHistorySize cfg (h ++ [r]) = (h ++ [r]).drop 1 ∧
    (manageHistorySize cfg (h ++ [r])).length = TRANSCRIPTION_CACHE_SIZE cfg := by
  have hpos := cache_size_pos cfg
  have hlen2 : (h ++ [r]).length = TRANSCRIPTION_CACHE_SIZE cfg + 1 := by
    simp [hlen]
  have hmain : manageHistorySize cfg (h ++ [r]) = (h ++ [r]).drop 1 := by
    rw [manageHistorySize, if_pos (by omega), pyLastSlice, if_neg (by omega), hlen2]
    congr 1
    omega
  refine ⟨hmain, ?_⟩
  rw [hmain, List.length_drop, hlen2]
  omega

set_option maxRecDepth 8000 in
/-- C7 amended witness: the eviction at the Railway capacity. -/
theorem C7_amended_witness :
    manageHistorySize cfgRailway (List.replicate 200 resA ++ [resB]) =
      (List.replicate 200 resA ++ [resB]).drop 1 ∧
    (manageHistorySize cfgRailway (List.replicate 200 resA ++ [resB])).length =
      TRANSCRIPTION_CACHE_SIZE cfgRailway :=
  C7_amended cfgRailway (List.replicate 200 resA) resB (by decide)

end HistoryCapacity

section EmptyFinalText

open Transcription

/-- A session state whose pending partial text is whitespace-only. -/
def stateWhitespacePartial : ProcessorState :=
  { stateAtCapacity with transcription_history := [], realtime_text := some " " }

/-- C8 counterexample: a silence-triggered finalize with a
    whitespace-only partial text (" ") creates and emits a
    TranscriptionResult and appends it to the history — the forced
    paths test only Python truthiness, not str.strip(), unlike
    on_final. -/
theorem C8_counterexample :
    pyStrip " " = "" ∧
    ((finalize_current_transcription cfgStd oracleNone 5 stateWhitespacePartial).1).transcription_history.length = 1 ∧
    (finalize_current_transcription cfgStd oracleNone 5 stateWhitespacePartial).2 ≠ none := by
  decide

/-- C8 amended: on_final discards empty or whitespace-only text with no
    result, history change or callback; the silence-triggered and
    forced finalize paths discard only a missing or empty partial text
    (whitespace-only partial text still produces a result). -/
theorem C8_amended :
    (∀ (cfg : Config) (oracle : String → Option String) (now : ℚ)
       (audio : Option (List ℚ)) (text : Option String) (s : ProcessorState),
       (optTruthy text = false ∨ pyStrip (text.getD "") = "") →
       on_final cfg oracle now audio text s = (s, none)) ∧
    (∀ (cfg : Config) (oracle : String → Option String) (now : ℚ)
       (s : ProcessorState), optTruthy s.realtime_text = false →
       finalize_current_transcription cfg oracle now s = (s, none)) ∧
    (∀ (cfg : Config) (oracle : String → Option String) (now : ℚ)
       (audio : Option (List ℚ)) (s : ProcessorState),
       optTruthy s.realtime_text = false →
       force_finalize cfg oracle now audio s = (s, none)) := by
  refine ⟨?_, ?_, ?_⟩
  · intro cfg oracle now audio text s h
    rw [on_final, if_pos]
    rcases h with h | h
    · exact Or.inl (by simp [h])
    · exact Or.inr h
  · intro cfg oracle now s h
    rw [finalize_current_transcription, if_pos (by simp [h])]
  · intro cfg oracle now audio s h
    rw [force_finalize, if_pos (Or.inr (by simp [h]))]

/-- C8 amended witness: each discard branch at concrete inputs. -/
theorem C8_amended_witness :
    on_final cfgStd oracleNone 0 none (some "   ") stateFullHistory =
      (stateFullHistory, none) ∧
    finalize_current_transcription cfgStd oracleNone 0 stateFullHistory =
      (stateFullHistory, none) ∧
    force_finalize cfgStd oracleNone 0 none stateFullHistory =
      (stateFullHistory, none) :=
  ⟨C8_amended.1 cfgStd oracleNone 0 none (some "   ") stateFullHistory (Or.inr (by decide)),
   C8_amended.2.1 cfgStd oracleNone 0 stateFullHistory (by decide),
   C8_amended.2.2 cfgStd oracleNone 0 none stateFullHistory (by decide)⟩

end EmptyFinalText

section SilenceMonitor

open Transcription

/-- The silence-triggered finalize path leaves the monitor-relevant
    session fields untouched: in particular neither the silence-start
    timestamp nor the pending partial text is reset. -/
theorem finalize_preserves (cfg : Config) (oracle : String → Option String)
    (now : ℚ) (s : ProcessorState) :
    (finalize_current_transcription cfg oracle now s).1.silence_time = s.silence_time ∧
    (finalize_current_transcription cfg oracle now s).1.realtime_text = s.realtime_text ∧
    (finalize_current_transcription cfg oracle now s).1.recorder = s.recorder ∧
    (finalize_current_transcription cfg oracle now s).1.shutdown_performed = s.shutdown_performed ∧
    (finalize_current_transcription cfg oracle now s).1.post_speech_silence_duration = s.post_speech_silence_duration ∧
    (finalize_current_transcription cfg oracle now s).1.pipeline_latency = s.pipeline_latency ∧
    (finalize_current_transcription cfg oracle now s).1.current_language = s.current_language ∧
    (finalize_current_transcription cfg oracle now s).1.current_confidence = s.current_confidence ∧
    (finalize_current_transcription cfg oracle now s).1.language_detector_enabled = s.language_detector_enabled := by
  rw [finalize_current_transcription]
  split
  · exact ⟨rfl, rfl, rfl, rfl, rfl, rfl, rfl, rfl, rfl⟩
  · exact ⟨rfl, rfl, rfl, rfl, rfl, rfl, rfl, rfl, rfl⟩

/-- A truthy pending partial makes the silence-triggered finalize emit
    a result. -/
theorem finalize_emits (cfg : Config) (oracle : String → Option String)
    (now : ℚ) (s : ProcessorState) (h : optTruthy s.realtime_text = true) :
    (finalize_current_transcription cfg oracle now s).2.isSome = true := by
  rw [finalize_current_transcription, if_neg (by simp [h])]
  rfl

/-- A truthy pending partial with spare history capacity grows the
    history by exactly one on the silence-triggered finalize. -/
theorem finalize_hist_len (cfg : Config) (oracle : String → Option String)
    (now : ℚ) (s : ProcessorState) (h : optTruthy s.realtime_text = true)
    (hlen : s.transcription_history.length < TRANSCRIPTION_CACHE_SIZE cfg) :
    (finalize_current_transcription cfg oracle now s).1.transcription_history.length =
      s.transcription_history.length + 1 := by
  rw [finalize_current_transcription, if_neg (by simp [h])]
  dsimp only [autoSaveIfNeeded]
  rw [manageHistorySize, if_neg (by simp only [List.length_append,
    List.length_cons, List.length_nil]; omega)]
  simp

/-- Under the firing conditions the monitor poll IS the
    silence-triggered finalize. -/
theorem monitor_poll_eq_finalize (cfg : Config)
    (oracle : String → Option String) (now : ℚ) (s : ProcessorState)
    (h1 : s.shutdown_performed = false) (h2 : s.recorder = true)
    (h3 : s.silence_time ≠ 0)
    (h4 : now - s.silence_time >
      s.post_speech_silence_duration - s.pipeline_latency - PIPELINE_RESERVE_TIME_MS cfg)
    (h5 : optTruthy s.realtime_text = true) :
    monitor_poll cfg oracle now s = finalize_current_transcription cfg oracle now s := by
  rw [monitor_poll, h1, if_neg Bool.false_ne_true, if_pos ⟨h2, h3⟩]
  dsimp only
  rw [if_pos ⟨h4, h5⟩]

/-- The monitor poll never changes the silence-start timestamp or the
    pending partial text. -/
theorem monitor_preserves (cfg : Config) (oracle : String → Option String)
    (now : ℚ) (s : ProcessorState) :
    (monitor_poll cfg oracle now s).1.silence_time = s.silence_time ∧
    (monitor_poll cfg oracle now s).1.realtime_text = s.realtime_text := by
  rw [monitor_poll]
  split
  · exact ⟨rfl, rfl⟩
  · split
    · dsimp only
      split
      · exact ⟨(finalize_preserves cfg oracle now s).1,
               (finalize_preserves cfg oracle now s).2.1⟩
      · exact ⟨rfl, rfl⟩
    · exact ⟨rfl, rfl⟩

/-- When the processor is not shut down, one monitor poll finalizes
    exactly when a recorder exists, a non-zero silence-start is
    recorded, now exceeds the deadline
    silence_start + silence_duration - pipeline_latency - reserve,
    and the pending partial is non-empty. -/
theorem monitor_fires_iff (cfg : Config) (oracle : String → Option String)
    (now : ℚ) (s : ProcessorState) (hsd : s.shutdown_performed = false) :
    (monitor_poll cfg oracle now s).2.isSome = true ↔
      (s.recorder = true ∧ s.silence_time ≠ 0 ∧
       now > s.silence_time +
         (s.post_speech_silence_duration - s.pipeline_latency -
          PIPELINE_RESERVE_TIME_MS cfg) ∧
       optTruthy s.realtime_text = true) := by
  rw [monitor_poll, hsd, if_neg Bool.false_ne_true]
  by_cases hA : s.recorder = true ∧ s.silence_time ≠ 0
  · rw [if_pos hA]
    dsimp only
    by_cases hB : now - s.silence_time >
        s.post_speech_silence_duration - s.pipeline_latency -
          PIPELINE_RESERVE_TIME_MS cfg ∧ optTruthy s.realtime_text = true
    · rw [if_pos hB]
      constructor
      · intro _
        exact ⟨hA.1, hA.2, by linarith [hB.1], hB.2⟩
      · intro _
        exact finalize_emits cfg oracle now s hB.2
    · rw [if_neg hB]
      constructor
      · intro h
        exact absurd h (by simp)
      · rintro ⟨-, -, h3, h4⟩
        exact absurd ⟨by linarith, h4⟩ hB
  · rw [if_neg hA]
    constructor
    · intro h
      exact absurd h (by simp)
    · rintro ⟨hr, hs0, -, -⟩
      exact absurd ⟨hr, hs0⟩ hA

/-- A session state in the middle of a silence window: silence started
    at t = 1 with a pending partial "hello wor". -/
def stateSilenceWatch : ProcessorState :=
  { current_language := "en", auto_language_switching := false,
    language_detector_enabled := false, transcription_history := [],
    realtime_text := some "hello wor", current_confidence := 1,
    silence_time := 1, silence_active := true, recording_start_time := some 0,
    last_partial_text := "", recorder := true, shutdown_performed := false,
    pipeline_latency := 3/10, post_speech_silence_duration := 7/10,
    export_path := false, auto_save_counter := 0 }

/-- C2 counterexample: the poll at t = 2 fires and finalizes, but the
    silence-start timestamp is NOT reset (no return to Idle), so the
    next poll 5 ms later fires again and appends a second finalized
    result for the same silence window. -/
theorem C2_counterexample :
    (monitor_poll cfgStd oracleNone 2 stateSilenceWatch).2.isSome = true ∧
    (monitor_poll cfgStd oracleNone 2 stateSilenceWatch).1.silence_time =
      stateSilenceWatch.silence_time ∧
    (monitor_poll cfgStd oracleNone (2005/1000)
        ((monitor_poll cfgStd oracleNone 2 stateSilenceWatch).1)).2.isSome = true ∧
    (monitor_poll cfgStd oracleNone (2005/1000)
        ((monitor_poll cfgStd oracleNone 2 stateSilenceWatch).1)).1.transcription_history.length = 2 := by
  have harith : (2 : ℚ) - stateSilenceWatch.silence_time >
      stateSilenceWatch.post_speech_silence_duration -
        stateSilenceWatch.pipeline_latency - PIPELINE_RESERVE_TIME_MS cfgStd := by
    show (2 : ℚ) - 1 > 7/10 - 3/10 - 15/1000
    norm_num
  have hfire1 : monitor_poll cfgStd oracleNone 2 stateSilenceWatch =
      finalize_current_transcription cfgStd oracleNone 2 stateSilenceWatch :=
    monitor_poll_eq_finalize cfgStd oracleNone 2 stateSilenceWatch rfl rfl
      (by show (1 : ℚ) ≠ 0; norm_num) harith rfl
  have hp := finalize_preserves cfgStd oracleNone 2 stateSilenceWatch
  have hl1 : (monitor_poll cfgStd oracleNone 2 stateSilenceWatch).1.transcription_history.length = 1 := by
    rw [hfire1]
    rw [finalize_hist_len cfgStd oracleNone 2 stateSilenceWatch rfl
      (by show (0:Nat) < 1000; norm_num)]
    rfl
  have harith2 : (2005/1000 : ℚ) -
      (monitor_poll cfgStd oracleNone 2 stateSilenceWatch).1.silence_time >
      (monitor_poll cfgStd oracleNone 2 stateSilenceWatch).1.post_speech_silence_duration -
        (monitor_poll cfgStd oracleNone 2 stateSilenceWatch).1.pipeline_latency -
        PIPELINE_RESERVE_TIME_MS cfgStd := by
    rw [hfire1, hp.1, hp.2.2.2.2.1, hp.2.2.2.2.2.1]
    show (2005/1000 : ℚ) - 1 > 7/10 - 3/10 - 15/1000
    norm_num
  have hfire2 : monitor_poll cfgStd oracleNone (2005/1000)
      ((monitor_poll cfgStd oracleNone 2 stateSilenceWatch).1) =
      finalize_current_transcription cfgStd oracleNone (2005/1000)
        ((monitor_poll cfgStd oracleNone 2 stateSilenceWatch).1) :=
    monitor_poll_eq_finalize cfgStd oracleNone (2005/1000) _
      (by rw [hfire1, hp.2.2.2.1]; rfl)
      (by rw [hfire1, hp.2.2.1]; rfl)
      (by rw [hfire1, hp.1]; show (1 : ℚ) ≠ 0; norm_num)
      harith2
      (by rw [hfire1, hp.2.1]; rfl)
  refine ⟨?_, ?_, ?_, ?_⟩
  · rw [hfire1]
    exact finalize_emits cfgStd oracleNone 2 stateSilenceWatch rfl
  · rw [hfire1]
    exact hp.1
  · rw [hfire2]
    exact finalize_emits cfgStd oracleNone (2005/1000) _
      (by rw [hfire1, hp.2.1]; rfl)
  · rw [hfire2]
    rw [finalize_hist_len cfgStd oracleNone (2005/1000) _
      (by rw [hfire1, hp.2.1]; rfl)
      (by rw [hl1]; show (1:Nat) < TRANSCRIPTION_CACHE_SIZE cfgStd; norm_num [TRANSCRIPTION_CACHE_SIZE, cfgStd])]
    rw [hl1]

/-- C2 amended: while not shut down, each ≈5 ms poll of the silence
    monitor force-finalizes exactly when a recorder exists, a non-zero
    silence-start timestamp is recorded, now exceeds
    deadline = silence_start + configured_silence_duration -
    pipeline_latency - reserve_margin, and a non-empty partial
    transcript exists; but finalizing resets neither the silence-start
    timestamp nor the partial text, so the monitor does NOT return to
    an idle state and a persisting silence window is finalized on every
    subsequent poll rather than exactly once. -/
theorem C2_amended (cfg : Config) (oracle : String → Option String)
    (now : ℚ) (s : ProcessorState) (hsd : s.shutdown_performed = false) :
    ((monitor_poll cfg oracle now s).2.isSome = true ↔
      (s.recorder = true ∧ s.silence_time ≠ 0 ∧
       now > s.silence_time +
         (s.post_speech_silence_duration - s.pipeline_latency -
          PIPELINE_RESERVE_TIME_MS cfg) ∧
       optTruthy s.realtime_text = true)) ∧
    (monitor_poll cfg oracle now s).1.silence_time = s.silence_time ∧
    (monitor_poll cfg oracle now s).1.realtime_text = s.realtime_text :=
  ⟨monitor_fires_iff cfg oracle now s hsd,
   (monitor_preserves cfg oracle now s).1,
   (monitor_preserves cfg oracle now s).2⟩

/-- C2 amended witness: the characterization applied to the concrete
    watching state at t = 2. -/
theorem C2_amended_witness :
    ((monitor_poll cfgStd oracleNone 2 stateSilenceWatch).2.isSome = true ↔
      (stateSilenceWatch.recorder = true ∧ stateSilenceWatch.silence_time ≠ 0 ∧
       (2:ℚ) > stateSilenceWatch.silence_time +
         (stateSilenceWatch.post_speech_silence_duration -
          stateSilenceWatch.pipeline_latency -
          PIPELINE_RESERVE_TIME_MS cfgStd) ∧
       optTruthy stateSilenceWatch.realtime_text = true)) ∧
    (monitor_poll cfgStd oracleNone 2 stateSilenceWatch).1.silence_time =
      stateSilenceWatch.silence_time ∧
    (monitor_poll cfgStd oracleNone 2 stateSilenceWatch).1.realtime_text =
      stateSilenceWatch.realtime_text :=
  C2_amended cfgStd oracleNone 2 stateSilenceWatch rfl

end SilenceMonitor

section LanguageInvariant

open Transcription

/-- switch_language either keeps the current language (rejection or
    no-op) or moves to a target that is a registry key. -/
theorem switch_language_cases (cfg : Config) (l : String) (s : ProcessorState) :
    (switch_language cfg l s).1.current_language = s.current_language ∨
    (supportedLanguage cfg l = true ∧
     (switch_language cfg l s).1.current_language = l) := by
  rw [switch_language]
  cases hsup : supportedLanguage cfg l with
  | false =>
    rw [if_pos (by decide)]
    exact Or.inl rfl
  | true =>
    rw [if_neg (by decide)]
    by_cases h2 : l = s.current_language
    · rw [if_pos h2]
      exact Or.inl rfl
    · rw [if_neg h2]
      exact Or.inr ⟨rfl, rfl⟩

/-- on_final never changes the current language. -/
theorem on_final_keeps_language (cfg : Config) (oracle : String → Option String)
    (now : ℚ) (audio : Option (List ℚ)) (txt : Option String)
    (s : ProcessorState) :
    (on_final cfg oracle now audio txt s).1.current_language = s.current_language := by
  rw [on_final]
  split
  · rfl
  · rfl

/-- force_finalize never changes the current language. -/
theorem force_finalize_keeps_language (cfg : Config)
    (oracle : String → Option String) (now : ℚ) (audio : Option (List ℚ))
    (s : ProcessorState) :
    (force_finalize cfg oracle now audio s).1.current_language = s.current_language := by
  rw [force_finalize]
  split
  · rfl
  · rfl

/-- The monitor poll never changes the current language. -/
theorem monitor_keeps_language (cfg : Config) (oracle : String → Option String)
    (now : ℚ) (s : ProcessorState) :
    (monitor_poll cfg oracle now s).1.current_language = s.current_language := by
  rw [monitor_poll]
  split
  · rfl
  · split
    · dsimp only
      split
      · exact (finalize_preserves cfg oracle now s).2.2.2.2.2.2.1
      · rfl
    · rfl

/-- The automatic switching step leaves the current language alone or
    moves it to a registry key. -/
theorem auto_switch_language_cases (cfg : Config)
    (oracle : String → Option String) (t : String) (s : ProcessorState) :
    (auto_switch cfg oracle t s).current_language = s.current_language ∨
    supportedLanguage cfg ((auto_switch cfg oracle t s).current_language) = true := by
  rw [auto_switch]
  split
  · exact Or.inl rfl
  · cases hdet : detect_language s.language_detector_enabled oracle t with
    | none => exact Or.inl rfl
    | some d =>
      dsimp only
      split
      · exact Or.inl rfl
      · split
        · rcases switch_language_cases cfg "hi-en" s with h | ⟨hs, h⟩
          · exact Or.inl h
          · exact Or.inr (by rw [h]; exact hs)
        · split
          · split
            · split
              · rcases switch_language_cases cfg d s with h | ⟨hs, h⟩
                · exact Or.inl h
                · exact Or.inr (by rw [h]; exact hs)
              · exact Or.inl rfl
            · rcases switch_language_cases cfg d s with h | ⟨hs, h⟩
              · exact Or.inl h
              · exact Or.inr (by rw [h]; exact hs)
          · exact Or.inl rfl

/-- The realtime callback leaves the current language alone or moves it
    to a registry key. -/
theorem onPartial_language_cases (cfg : Config)
    (oracle : String → Option String) (similarOracle : String → String → Bool)
    (stripEnding : String → String) (now : ℚ) (audio : Option (List ℚ))
    (txt : Option String) (s : ProcessorState) :
    (onPartialText cfg oracle similarOracle stripEnding now audio txt s).1.current_language = s.current_language ∨
    supportedLanguage cfg ((onPartialText cfg oracle similarOracle stripEnding now audio txt s).1.current_language) = true := by
  rw [onPartialText]
  split
  · exact Or.inl rfl
  · dsimp only
    split
    · exact auto_switch_language_cases cfg oracle (txt.getD "") _
    · exact auto_switch_language_cases cfg oracle (txt.getD "") _

/-- C9 amended: current_language is a Language Registry key at
    construction whenever the source_language argument is one (the
    constructor itself does not validate it), and membership is
    preserved by every session operation; switch_language rejects an
    unsupported target, returning failure and leaving the state
    unchanged. -/
theorem C9_amended (cfg : Config) (oracle : String → Option String)
    (similarOracle : String → String → Bool) (stripEnding : String → String)
    (now : ℚ) (audio : Option (List ℚ)) (txt : Option String)
    (target src : String) (autoSw contMode expPath det rec : Bool)
    (lat : ℚ) (s : ProcessorState)
    (hs : supportedLanguage cfg s.current_language = true) :
    supportedLanguage cfg ((onPartialText cfg oracle similarOracle stripEnding now audio txt s).1.current_language) = true ∧
    supportedLanguage cfg ((on_final cfg oracle now audio txt s).1.current_language) = true ∧
    supportedLanguage cfg ((finalize_current_transcription cfg oracle now s).1.current_language) = true ∧
    supportedLanguage cfg ((force_finalize cfg oracle now audio s).1.current_language) = true ∧
    supportedLanguage cfg ((monitor_poll cfg oracle now s).1.current_language) = true ∧
    (supportedLanguage cfg target = true →
      supportedLanguage cfg ((switch_language cfg target s).1.current_language) = true) ∧
    (supportedLanguage cfg target = false →
      switch_language cfg target s = (s, false)) ∧
    (supportedLanguage cfg src = true →
      supportedLanguage cfg
        ((init_processor cfg src autoSw contMode lat expPath det rec).current_language) = true) := by
  refine ⟨?_, ?_, ?_, ?_, ?_, ?_, ?_, ?_⟩
  · rcases onPartial_language_cases cfg oracle similarOracle stripEnding now audio txt s with h | h
    · rw [h]; exact hs
    · exact h
  · rw [on_final_keeps_language]; exact hs
  · rw [(finalize_preserves cfg oracle now s).2.2.2.2.2.2.1]; exact hs
  · rw [force_finalize_keeps_language]; exact hs
  · rw [monitor_keeps_language]; exact hs
  · intro ht
    rcases switch_language_cases cfg target s with h | ⟨-, h⟩
    · rw [h]; exact hs
    · rw [h]; exact ht
  · intro ht
    rw [switch_language, if_pos (by rw [ht]; rfl)]
  · intro ht
    exact ht

/-- C9 counterexample: constructing the processor with the unsupported
    source language "fr" leaves current_language = "fr", which is not a
    Language Registry key — the claimed invariant fails at
    construction. -/
theorem C9_counterexample :
    (init_processor cfgStd "fr" true true (3/10) false true true).current_language = "fr" ∧
    supportedLanguage cfgStd "fr" = false :=
  ⟨rfl, by decide⟩

/-- C9 amended witness: the preservation bundle at a concrete
    supported-language state, with the unsupported target "fr". -/
theorem C9_amended_witness :
    supportedLanguage cfgStd ((onPartialText cfgStd oracleNone (fun _ _ => false) (fun u => u) 0 none (some "hi there") stateSilenceWatch).1.current_language) = true ∧
    supportedLanguage cfgStd ((on_final cfgStd oracleNone 0 none (some "hi there") stateSilenceWatch).1.current_language) = true ∧
    supportedLanguage cfgStd ((finalize_current_transcription cfgStd oracleNone 0 stateSilenceWatch).1.current_language) = true ∧
    supportedLanguage cfgStd ((force_finalize cfgStd oracleNone 0 none stateSilenceWatch).1.current_language) = true ∧
    supportedLanguage cfgStd ((monitor_poll cfgStd oracleNone 0 stateSilenceWatch).1.current_language) = true ∧
    (supportedLanguage cfgStd "fr" = true →
      supportedLanguage cfgStd ((switch_language cfgStd "fr" stateSilenceWatch).1.current_language) = true) ∧
    (supportedLanguage cfgStd "fr" = false →
      switch_language cfgStd "fr" stateSilenceWatch = (stateSilenceWatch, false)) ∧
    (supportedLanguage cfgStd "en" = true →
      supportedLanguage cfgStd
        ((init_processor cfgStd "en" true true (3/10) false true true).current_language) = true) :=
  C9_amended cfgStd oracleNone (fun _ _ => false) (fun u => u) 0 none
    (some "hi there") "fr" "en" true true false true true (3/10)
    stateSilenceWatch (by decide)

end LanguageInvariant

section CodeSwitchHysteresis

open Transcription

/-- A successful detection needs a non-empty text. -/
theorem detect_some_ne_empty (e : Bool) (oracle : String → Option String)
    (t d : String) (h : detect_language e oracle t = some d) : t ≠ "" := by
  intro ht
  subst ht
  rw [detect_language, if_pos (Or.inr (Or.inl rfl))] at h
  exact Option.noConfusion h

/-- A detection that yields a single-language code (not "hi-en")
    certifies that the text has no mixed scripts, because mixed-script
    text is always reported as "hi-en". -/
theorem detect_some_not_mixed (e : Bool) (oracle : String → Option String)
    (t d : String) (h : detect_language e oracle t = some d)
    (hd : d ≠ "hi-en") : hasMixedScripts t = false := by
  rw [detect_language] at h
  by_cases hg : ((!e) = true ∨ t = "" ∨ countWords t < LANGUAGE_DETECTION_MIN_WORDS)
  · rw [if_pos hg] at h
    exact Option.noConfusion h
  · rw [if_neg hg] at h
    cases ho : oracle t with
    | none =>
      rw [ho] at h
      exact Option.noConfusion h
    | some x =>
      rw [ho] at h
      dsimp only at h
      cases hm : hasMixedScripts t with
      | false => rfl
      | true =>
        rw [hm] at h
        simp only [if_pos] at h
        exact absurd (Option.some.inj h).symm hd

/-- Both "hi" and "en" are registry keys in every profile. -/
theorem supported_hi_en (cfg : Config) :
    supportedLanguage cfg "hi" = true ∧ supportedLanguage cfg "en" = true := by
  rcases cfg with ⟨b⟩
  cases b <;> exact ⟨by decide, by decide⟩

/-- The hysteresis branch of the automatic switching step: in
    code-switch mode, a detected single language replaces "hi-en"
    exactly when at least two of the (up to) last three history texts
    re-detect to that language. -/
theorem auto_switch_hien (cfg : Config) (oracle : String → Option String)
    (t : String) (s : ProcessorState) (d : String)
    (hauto : s.auto_language_switching = true)
    (hcur : s.current_language = "hi-en")
    (hdet : detect_language s.language_detector_enabled oracle t = some d)
    (hd : d = "hi" ∨ d = "en") :
    (auto_switch cfg oracle t s).current_language =
      (if 2 ≤ (recentDetections s.language_detector_enabled oracle
                 s.transcription_history).count (some d)
       then d else "hi-en") := by
  have hdne : d ≠ "hi-en" := by rcases hd with rfl | rfl <;> decide
  have hmix : hasMixedScripts t = false :=
    detect_some_not_mixed _ oracle t d hdet hdne
  have hdsup : supportedLanguage cfg d = true := by
    rcases hd with rfl | rfl
    · exact (supported_hi_en cfg).1
    · exact (supported_hi_en cfg).2
  rw [auto_switch, if_neg (by rw [hauto]; decide), hdet]
  dsimp only
  rw [hcur]
  rw [if_neg (by rcases hd with rfl | rfl <;> simp)]
  rw [if_neg (by simp [hmix])]
  rw [if_pos ⟨hd, by simp [hmix]⟩]
  rw [if_pos rfl]
  by_cases hc : 2 ≤ (recentDetections s.language_detector_enabled oracle
      s.transcription_history).count (some d)
  · rw [if_pos hc, if_pos hc]
    rw [switch_language, if_neg (by rw [hdsup]; decide),
      if_neg (by rw [hcur]; exact hdne)]
  · rw [if_neg hc, if_neg hc]
    exact hcur

/-- C4: with automatic switching enabled and the session in code-switch
    mode "hi-en", a partial whose detected language is a single
    language ("hi" or "en") — which certifies the text is not
    mixed-script — moves the session off "hi-en" exactly when at least
    two of the last three finalized history results re-detect to the
    detected language; otherwise current_language remains "hi-en".
    The history of this processor holds only finalized results, and the
    theorem holds for every similarity comparator and punctuation
    stripper. -/
theorem C4_hysteresis (cfg : Config) (oracle : String → Option String)
    (similarOracle : String → String → Bool) (stripEnding : String → String)
    (now : ℚ) (audio : Option (List ℚ)) (s : ProcessorState) (t d : String)
    (hauto : s.auto_language_switching = true)
    (hcur : s.current_language = "hi-en")
    (hdet : detect_language s.language_detector_enabled oracle t = some d)
    (hd : d = "hi" ∨ d = "en") :
    ((onPartialText cfg oracle similarOracle stripEnding now audio (some t) s).1).current_language =
      (if 2 ≤ (recentDetections s.language_detector_enabled oracle
                 s.transcription_history).count (some d)
       then d else "hi-en") := by
  have ht : t ≠ "" := detect_some_ne_empty _ oracle t d hdet
  rw [onPartialText,
    if_neg (by simp [optTruthy, String.isEmpty_iff, ht])]
  dsimp only
  split
  · exact auto_switch_hien cfg oracle t _ d hauto hcur hdet hd
  · exact auto_switch_hien cfg oracle t _ d hauto hcur hdet hd

/-- A session in code-switch mode with an empty history (no prior
    finalized results to corroborate a switch). -/
def stateCodeSwitch : ProcessorState :=
  { stateSilenceWatch with
    current_language := "hi-en",
    auto_language_switching := true,
    language_detector_enabled := true,
    transcription_history := [] }

/-- A langdetect oracle that reports English for every text. -/
def oracleEn : String → Option String := fun _ => some "en"

/-- C4 witness: with an empty history (zero of the last three agree),
    the partial "hello there friend" detected as "en" leaves the
    session in "hi-en". -/
theorem C4_hysteresis_witness :
    ((onPartialText cfgStd oracleEn (fun _ _ => false) (fun u => u) 0 none
        (some "hello there friend") stateCodeSwitch).1).current_language = "hi-en" := by
  have h := C4_hysteresis cfgStd oracleEn (fun _ _ => false) (fun u => u) 0 none
    stateCodeSwitch "hello there friend" "en" rfl rfl (by decide) (Or.inr rfl)
  rw [h]
  decide

end CodeSwitchHysteresis
